import Mathlib

/-!
Verification of the real-time notification/update fan-out path of relate.io:
the dashboard client's WebSocket cache invalidator
(src/frontend/components/EnhancedDashboard.tsx) and the server-side
connection registry / broadcast router described by the spec.
-/

namespace RelateIO

/-! ## Client side: the dashboard WebSocket handler

Shallow embedding of the `ws.onmessage` handler in
`EnhancedDashboard.tsx` (lines 467-490):

```tsx
const ws = new WebSocket(`ws://localhost:8000/ws/1`); // Mock advisor ID
ws.onmessage = (event) => {
  const data = JSON.parse(event.data);
  switch (data.type) {
    case 'new_feedback':
      queryClient.invalidateQueries(\x7b queryKey: ['sentimentTrends'] \x7d);
      queryClient.invalidateQueries(\x7b queryKey: ['clients'] \x7d);
      break;
    case 'portfolio_synced':
      queryClient.invalidateQueries(\x7b queryKey: ['clients'] \x7d);
      queryClient.invalidateQueries(\x7b queryKey: ['portfolio', data.client_id] \x7d);
      break;
    case 'client_created':
      queryClient.invalidateQueries(\x7b queryKey: ['clients'] \x7d);
      break;
  }
};
return () => ws.close();
```
-/

/-- A named query cache, as identified by the `queryKey` arrays used in
`EnhancedDashboard.tsx`: `['sentimentTrends']`, `['clients']`,
`['portfolio', data.client_id]`. -/
inductive QueryKey where
  | sentimentTrends : QueryKey
  | clients : QueryKey
  | portfolio (client_id : Option Int) : QueryKey
deriving DecidableEq, Repr

/-- A parsed incoming WebSocket message: the handler reads `data.type`
(a string) and, for portfolio events, `data.client_id` (possibly absent,
the payload being untyped JSON). -/
structure WsMessage where
  type : String
  client_id : Option Int
deriving DecidableEq, Repr

/-- The `switch (data.type)` body of `ws.onmessage`: the list of query
caches invalidated for a parsed message.  Cases `new_feedback`,
`portfolio_synced`, `client_created`; any other type falls through the
switch with no action. -/
def handleMessage (data : WsMessage) : List QueryKey :=
  match data.type with
  | "new_feedback" => [QueryKey.sentimentTrends, QueryKey.clients]
  | "portfolio_synced" => [QueryKey.clients, QueryKey.portfolio data.client_id]
  | "client_created" => [QueryKey.clients]
  | _ => []

/-- An error escaping the `ws.onmessage` handler. `JSON.parse` throws a
`SyntaxError` on invalid JSON, and the handler body has no try/catch. -/
inductive HandlerError where
  | syntaxError : HandlerError
deriving DecidableEq, Repr

/-- An observable action of the dashboard client on its WebSocket. -/
inductive ClientAction where
  | invalidate (k : QueryKey) : ClientAction
  | send (payload : String) : ClientAction
  | close : ClientAction
deriving DecidableEq, Repr

/-- The `ws.onmessage` handler.  Its input is the result of
`JSON.parse(event.data)`: `none` when the raw data is not valid JSON
(in which case `JSON.parse` throws).  The handler body wraps the parse
in no try/catch, so the exception propagates out of the handler
(`Except.error`); on a parsed message the handler performs exactly the
cache invalidations of the switch. -/
def onmessage (parsed : Option WsMessage) : Except HandlerError (List ClientAction) :=
  match parsed with
  | none => Except.error HandlerError.syntaxError
  | some data => Except.ok ((handleMessage data).map ClientAction.invalidate)

/-- The `useEffect` cleanup: `return () => ws.close();`. -/
def cleanupActions : List ClientAction := [ClientAction.close]

/-- The component state of `EnhancedDashboard` (its `useState` hooks:
`selectedClient`, `timeRange`).  The component takes no props. -/
structure DashboardState where
  selectedClient : Option Int
  timeRange : String
deriving DecidableEq, Repr

/-- The WebSocket URL opened by `EnhancedDashboard`'s effect:
the template literal is the constant string `ws://localhost:8000/ws/1`
("Mock advisor ID"), independent of the component state. -/
def wsUrl (_s : DashboardState) : String :=
  "ws://localhost:8000/ws/1"

/-- The actions a dashboard client performs over the lifetime of one
connection: handling each incoming message (a handler whose uncaught
exception produces no actions for that message) followed by the cleanup
close.  There is no other code path touching the socket. -/
def lifetimeActions (incoming : List (Option WsMessage)) : List ClientAction :=
  (incoming.flatMap (fun m =>
    match onmessage m with
    | Except.ok acts => acts
    | Except.error _ => [])) ++ cleanupActions

/-- Applying one received event to the set of currently stale caches:
`invalidateQueries` marks each affected cache stale (idempotently). -/
def applyEvent (stale : List QueryKey) (data : WsMessage) : List QueryKey :=
  handleMessage data ++ stale

/-! ## Server side: Connection Registry and Broadcast Router

The backend implementing `/ws/{advisor_id}` is not part of the checked-in
sources (only planning documents and the frontend consumer are), so the
registry and router are modelled from the spec, sections 4.1 and 4.2.
-/

/-- Modelled from the spec: the type of a Change Event
(`new_feedback`, `portfolio_synced`, `client_created`). -/
inductive EventType where
  | new_feedback : EventType
  | portfolio_synced : EventType
  | client_created : EventType
deriving DecidableEq, Repr

/-- Modelled from the spec: a ChangeEvent
`\x7b type, advisor_id, client_id? \x7d`, immutable once constructed. -/
structure ChangeEvent where
  type : EventType
  advisor_id : Int
  client_id : Option Int
deriving DecidableEq, Repr

/-- Modelled from the spec: a Connection
`\x7b connection_id, advisor_id, transport_handle \x7d`, registered under
exactly one advisor_id for its lifetime.  The transport handle itself is
kept outside the registry state: a transport's write outcome enters the
model as a parameter of `publish`. -/
structure Connection where
  connection_id : Nat
  advisor_id : Int
deriving DecidableEq, Repr

/-- Modelled from the spec: the in-memory Connection Registry, an
in-memory map from connection identity to transport grouped by advisor,
plus the source of fresh connection ids.  Invariant (spec section 3):
at most one live transport handle per `connection_id`. -/
structure Registry where
  conns : List Connection
  nextId : Nat
deriving DecidableEq, Repr

/-- Modelled from the spec:
`register(advisor_id, transport) -> connection_id` stores the transport
under `advisor_id` and returns a fresh connection id. -/
def register (r : Registry) (advisor_id : Int) : Registry × Nat :=
  ({ conns := r.conns ++ [{ connection_id := r.nextId, advisor_id := advisor_id }],
     nextId := r.nextId + 1 }, r.nextId)

/-- Modelled from the spec: `unregister(connection_id)` — idempotent
removal, a no-op if already removed. -/
def unregister (r : Registry) (cid : Nat) : Registry :=
  { r with conns := r.conns.filter (fun c => c.connection_id ≠ cid) }

/-- Modelled from the spec:
`connectionsFor(advisor_id) -> sequence of transports`, a point-in-time
snapshot of the connections registered under this advisor. -/
def connectionsFor (r : Registry) (advisor_id : Int) : List Connection :=
  r.conns.filter (fun c => c.advisor_id = advisor_id)

/-- One delivery attempt made by `publish`: the target connection and
whether the transport write succeeded. -/
structure DeliveryAttempt where
  connection_id : Nat
  ok : Bool
deriving DecidableEq, Repr

/-- Modelled from the spec: `publish(event: ChangeEvent)` looks up
`connectionsFor(event.advisor_id)` and attempts delivery to each
transport independently; a per-connection write failure does not abort
delivery to the others, and each failing connection is unregistered as a
side effect.  `writeOk` gives each transport's write outcome.  Returns
the registry after self-healing together with the attempts made. -/
def publish (r : Registry) (e : ChangeEvent) (writeOk : Nat → Bool) :
    Registry × List DeliveryAttempt :=
  let attempts := (connectionsFor r e.advisor_id).map
    (fun c => { connection_id := c.connection_id, ok := writeOk c.connection_id })
  let failedIds := (attempts.filter (fun a => !a.ok)).map DeliveryAttempt.connection_id
  (failedIds.foldl unregister r, attempts)

/-- Modelled from the spec: single-threaded dispatch of a sequence of
`publish` calls, in call order, starting at publish index `i`.  Returns
the final registry and the delivery log: one entry
`(publish index, connection_id)` per successful delivery, appended in
dispatch order. -/
def runPublishes (r : Registry) (writeOk : Nat → Bool) (i : Nat) :
    List ChangeEvent → Registry × List (Nat × Nat)
  | [] => (r, [])
  | e :: rest =>
    let p := publish r e writeOk
    let delivered := (p.2.filter (fun a => a.ok)).map
      (fun a => (i, a.connection_id))
    let next := runPublishes p.1 writeOk (i + 1) rest
    (next.1, delivered ++ next.2)

/-! ### Concrete fixtures (the spec's test scenario)

Advisor 1 has two open connections (ids 0 and 1), a third connection
(id 2) is registered under advisor 2. -/

/-- A registry with connections 0 and 1 under advisor 1 and connection 2
under advisor 2. -/
def r0 : Registry :=
  { conns := [{ connection_id := 0, advisor_id := 1 },
              { connection_id := 1, advisor_id := 1 },
              { connection_id := 2, advisor_id := 2 }],
    nextId := 3 }

/-- The spec scenario event
`\x7btype:"new_feedback", advisor_id:1, client_id:5\x7d`. -/
def e0 : ChangeEvent :=
  { type := EventType.new_feedback, advisor_id := 1, client_id := some 5 }

/-- A transport-outcome assignment where connection 0's write fails and
every other write succeeds. -/
def wFail : Nat → Bool := fun cid => cid != 0

/-! ## Helper lemmas -/

/-- Membership in a fold of `unregister` over a list of connection ids:
a connection survives iff it was there and its id is none of the
removed ids. -/
lemma mem_foldl_unregister (ids : List Nat) (r : Registry) (c : Connection) :
    c ∈ (ids.foldl unregister r).conns ↔
      c ∈ r.conns ∧ ∀ i ∈ ids, c.connection_id ≠ i := by
  induction ids generalizing r with
  | nil => simp
  | cons i rest ih =>
    simp only [List.foldl_cons, ih, unregister, List.mem_filter,
      List.mem_cons, decide_not]
    constructor
    · rintro ⟨⟨hmem, hne⟩, hrest⟩
      simp only [Bool.not_eq_eq_eq_not, Bool.not_true, decide_eq_false_iff_not] at hne
      exact ⟨hmem, fun j hj => by
        rcases hj with hj | hj
        · simpa [hj] using hne
        · exact hrest j hj⟩
    · rintro ⟨hmem, hall⟩
      refine ⟨⟨hmem, ?_⟩, fun j hj => hall j (Or.inr hj)⟩
      simpa using hall i (Or.inl rfl)

/-- Every entry of the delivery log of `runPublishes` starting at index
`i` carries a publish index at least `i`. -/
lemma runPublishes_log_ge (writeOk : Nat → Bool) :
    ∀ (es : List ChangeEvent) (r : Registry) (i : Nat),
      ∀ p ∈ (runPublishes r writeOk i es).2, i ≤ p.1 := by
  intro es
  induction es with
  | nil => intro r i p hp; simp [runPublishes] at hp
  | cons e rest ih =>
    intro r i p hp
    simp only [runPublishes, List.mem_append, List.mem_map,
      List.mem_filter] at hp
    rcases hp with ⟨a, _, rfl⟩ | hp
    · exact Nat.le_refl i
    · exact Nat.le_of_succ_le (ih _ (i + 1) p hp)

/-- The delivery log of `runPublishes` is sorted by publish index:
single-threaded dispatch appends each publish's deliveries after all
deliveries of earlier publish calls. -/
lemma runPublishes_log_sorted (writeOk : Nat → Bool) :
    ∀ (es : List ChangeEvent) (r : Registry) (i : Nat),
      ((runPublishes r writeOk i es).2).Pairwise (fun p q => p.1 ≤ q.1) := by
  intro es
  induction es with
  | nil => intro r i; simp [runPublishes]
  | cons e rest ih =>
    intro r i
    simp only [runPublishes]
    rw [List.pairwise_append]
    refine ⟨?_, ih _ (i + 1), ?_⟩
    · refine List.pairwise_of_forall_mem_list ?_
      rintro a ha b hb
      simp only [List.mem_map, List.mem_filter] at ha hb
      rcases ha with ⟨x, _, rfl⟩
      rcases hb with ⟨y, _, rfl⟩
      exact Nat.le_refl i
    · rintro a ha b hb
      simp only [List.mem_map, List.mem_filter] at ha
      rcases ha with ⟨x, _, rfl⟩
      exact Nat.le_of_succ_le (runPublishes_log_ge writeOk rest _ (i + 1) b hb)

/-! ## Claims -/

/-- C1: the dashboard handler's cache-invalidation table is exact:
`new_feedback` invalidates exactly the caches sentimentTrends and
clients; `portfolio_synced` exactly clients and the portfolio cache of
the event's client_id; `client_created` exactly clients, never a
portfolio cache. -/
theorem c1_invalidation_table (cid : Option Int) (k : QueryKey) :
    (k ∈ handleMessage { type := "new_feedback", client_id := cid } ↔
      k = QueryKey.sentimentTrends ∨ k = QueryKey.clients) ∧
    (k ∈ handleMessage { type := "portfolio_synced", client_id := cid } ↔
      k = QueryKey.clients ∨ k = QueryKey.portfolio cid) ∧
    (k ∈ handleMessage { type := "client_created", client_id := cid } ↔
      k = QueryKey.clients) ∧
    (∀ c : Option Int,
      QueryKey.portfolio c ∉ handleMessage { type := "client_created", client_id := cid }) := by
  refine ⟨?_, ?_, ?_, ?_⟩ <;> simp [handleMessage]

/-- C4 counterexample: the claim says the handler catches the
JSON-parse failure so that no error propagates out of it; in the code
`JSON.parse(event.data)` is not wrapped in any try/catch, so on an
unparsable message the handler terminates with the uncaught
SyntaxError rather than returning normally. -/
theorem c4_counterexample :
    onmessage none = Except.error HandlerError.syntaxError := rfl

/-- C4, amended: on an incoming message that is not valid JSON, the
parse failure is NOT caught — the exception propagates out of the
`onmessage` handler — but the effect stays confined to that message:
no query cache is invalidated, the handler does not close or write to
the socket, and all other messages of the connection are handled
exactly as if the invalid one had not arrived. -/
theorem c4_parse_failure_isolated (incoming1 incoming2 : List (Option WsMessage)) :
    onmessage none = Except.error HandlerError.syntaxError ∧
    lifetimeActions (incoming1 ++ [none] ++ incoming2) =
      lifetimeActions (incoming1 ++ incoming2) := by
  refine ⟨rfl, ?_⟩
  simp [lifetimeActions, onmessage]

/-- C5: an event whose type is none of new_feedback, portfolio_synced,
client_created falls through the switch: the handler invalidates no
query cache and raises no error. -/
theorem c5_unknown_type_noop (data : WsMessage)
    (h1 : data.type ≠ "new_feedback") (h2 : data.type ≠ "portfolio_synced")
    (h3 : data.type ≠ "client_created") :
    handleMessage data = [] ∧ onmessage (some data) = Except.ok [] := by
  have hmsg : handleMessage data = [] := by
    unfold handleMessage
    split <;> simp_all
  exact ⟨hmsg, by simp [onmessage, hmsg]⟩

/-- C5 witness: a concrete unknown event type is a no-op. -/
theorem c5_witness :
    handleMessage { type := "alert_raised", client_id := none } = [] ∧
    onmessage (some { type := "alert_raised", client_id := none }) = Except.ok [] :=
  c5_unknown_type_noop _ (by decide) (by decide) (by decide)

/-- C8: the dashboard's WebSocket usage is receive-only: over the whole
lifetime of the connection (any sequence of incoming messages followed
by the effect cleanup), the client never sends a message; its actions
are cache invalidations and the final close. -/
theorem c8_receive_only (incoming : List (Option WsMessage)) (payload : String) :
    ClientAction.send payload ∉ lifetimeActions incoming := by
  intro h
  simp only [lifetimeActions, cleanupActions, List.mem_append,
    List.mem_flatMap, List.mem_cons, List.not_mem_nil, or_false] at h
  rcases h with ⟨m, _, hact⟩ | h
  · match m with
    | none => simp [onmessage] at hact
    | some data =>
      simp only [onmessage, List.mem_map] at hact
      rcases hact with ⟨k, _, hk⟩
      exact ClientAction.noConfusion hk
  · exact ClientAction.noConfusion h

/-- C9: processing the same event twice leaves the same set of stale
caches as processing it once: each case of the handler only marks fixed
cache keys stale, and marking stale is idempotent. -/
theorem c9_idempotent_invalidation (stale : List QueryKey) (data : WsMessage)
    (k : QueryKey) :
    k ∈ applyEvent (applyEvent stale data) data ↔ k ∈ applyEvent stale data := by
  simp only [applyEvent, List.mem_append]
  tauto

/-- C10: every `EnhancedDashboard` instance opens the WebSocket at the
constant URL `ws://localhost:8000/ws/1` (a mock advisor id), whatever
the component state: from the frontend side all connections subscribe
under advisor_id 1. -/
theorem c10_constant_advisor (s s2 : DashboardState) :
    wsUrl s = "ws://localhost:8000/ws/1" ∧ wsUrl s = wsUrl s2 :=
  ⟨rfl, rfl⟩

/-- C2: with exactly the connections of `connectionsFor r e.advisor_id`
registered under the event's advisor, `publish` makes exactly one
delivery attempt per such connection — in registration order, whatever
each write's outcome — and, under the registry invariant of unique
connection ids, a connection registered under a different advisor_id is
the target of no attempt. -/
theorem c2_fanout_exact (r : Registry) (e : ChangeEvent) (writeOk : Nat → Bool)
    (hinv : (r.conns.map Connection.connection_id).Nodup) :
    (publish r e writeOk).2.length = (connectionsFor r e.advisor_id).length ∧
    (publish r e writeOk).2 = (connectionsFor r e.advisor_id).map
      (fun c => { connection_id := c.connection_id, ok := writeOk c.connection_id }) ∧
    ∀ c ∈ r.conns, c.advisor_id ≠ e.advisor_id →
      ∀ a ∈ (publish r e writeOk).2, a.connection_id ≠ c.connection_id := by
  refine ⟨by simp [publish], rfl, ?_⟩
  intro c hc hadv a ha hid
  simp only [publish, List.mem_map] at ha
  rcases ha with ⟨t, ht, rfl⟩
  simp only [connectionsFor, List.mem_filter, decide_eq_true_eq] at ht
  have heq := List.inj_on_of_nodup_map hinv ht.1 hc hid
  exact hadv (heq ▸ ht.2)

/-- C2 witness: the spec scenario — advisor 1 has two open connections,
a third is registered under advisor 2; `publish` of a new_feedback
event for advisor 1 makes one attempt per matching connection. -/
theorem c2_witness :
    (publish r0 e0 (fun _ => true)).2.length =
      (connectionsFor r0 e0.advisor_id).length :=
  (c2_fanout_exact r0 e0 (fun _ => true) (by decide)).1

/-- C3: when the transport write of a matching connection fails, the
fan-out is not aborted — every matching connection still gets its
delivery attempt with its own outcome — and the failing connection is
removed from the registry, so every subsequent `connectionsFor` (for
any advisor) omits it. -/
theorem c3_failure_self_healing (r : Registry) (e : ChangeEvent)
    (writeOk : Nat → Bool) (c : Connection)
    (hc : c ∈ connectionsFor r e.advisor_id)
    (hfail : writeOk c.connection_id = false) :
    ((publish r e writeOk).2 = (connectionsFor r e.advisor_id).map
      (fun t => { connection_id := t.connection_id, ok := writeOk t.connection_id })) ∧
    c ∉ (publish r e writeOk).1.conns ∧
    ∀ aid, ∀ t ∈ connectionsFor (publish r e writeOk).1 aid,
      t.connection_id ≠ c.connection_id := by
  have hfailed : c.connection_id ∈
      (((connectionsFor r e.advisor_id).map
          (fun t => ({ connection_id := t.connection_id,
                       ok := writeOk t.connection_id } : DeliveryAttempt))).filter
        (fun a => !a.ok)).map DeliveryAttempt.connection_id := by
    simp only [List.mem_map, List.mem_filter]
    exact ⟨{ connection_id := c.connection_id, ok := writeOk c.connection_id },
      ⟨⟨c, hc, rfl⟩, by simp [hfail]⟩, rfl⟩
  refine ⟨rfl, ?_, ?_⟩
  · intro hmem
    have h2 := (mem_foldl_unregister _ r c).mp hmem
    exact h2.2 c.connection_id hfailed rfl
  · intro aid t ht hid
    simp only [connectionsFor, List.mem_filter] at ht
    have h2 := (mem_foldl_unregister _ r t).mp ht.1
    exact h2.2 c.connection_id (by simpa [publish] using hfailed) hid

/-- C3 witness: in the spec scenario registry, connection 0's write
fails during a publish to advisor 1; afterwards connection 0 is gone
from the registry. -/
theorem c3_witness :
    ({ connection_id := 0, advisor_id := 1 } : Connection) ∉
      (publish r0 e0 wFail).1.conns :=
  (c3_failure_self_healing r0 e0 wFail
    { connection_id := 0, advisor_id := 1 } (by decide) (by decide)).2.1

/-- C6: deliveries to any one connection happen in publish order: in
the single-threaded dispatch of a sequence of `publish` calls, the
per-connection delivery log carries nondecreasing publish indices, so
no pair of events delivered to one connection is ever reordered
relative to the order the `publish` calls were made. -/
theorem c6_per_connection_order (r : Registry) (writeOk : Nat → Bool)
    (es : List ChangeEvent) (cid : Nat) :
    (((runPublishes r writeOk 0 es).2).filter (fun p => p.2 = cid)).Pairwise
      (fun p q => p.1 ≤ q.1) :=
  (runPublishes_log_sorted writeOk es r 0).filter _

/-- C7: `unregister` is idempotent: removing the same connection_id
twice yields the same registry as removing it once; on an
already-removed id it is a no-op and does not fail. -/
theorem c7_unregister_idempotent (r : Registry) (cid : Nat) :
    unregister (unregister r cid) cid = unregister r cid := by
  simp [unregister, List.filter_filter]

end RelateIO
